import Mathlib

/-!
Verification of the Grafana live channel-scope registry
(`public/app/features/live/channel-config/scope.ts`).

The four scope classes (`GrafanaLiveCoreScope`, `GrafanaLiveDataSourceScope`,
`GrafanaLivePluginScope`, `GrafanaLiveStreamScope`) are embedded shallowly:
each instance's mutable fields become a structure, each method becomes a
function from the structure (and the external collaborators it consults) to
a result paired with the updated structure.  Thrown `Error` values become an
`Except` error channel; each `throw new Error(...)` site in the source gets
its own constructor of `ScopeError`, and `ScopeError.message` rebuilds the
exact message string of the source.
-/

namespace GrafanaLive

/-- The `LiveChannelScope` enumerant passed to the abstract base constructor. -/
inductive LiveChannelScope where
  | grafana
  | dataSource
  | plugin
  | stream
deriving DecidableEq, Repr

/-- `LiveChannelSupport` values are opaque capability descriptors.
`measurements` is the object built by `new LiveMeasurementsSupport()`
(class imported from `../measurements/measurementsSupport`, not under `src/`;
modelled from the spec as the default "measurements" support the factory
produces); `custom n` stands for any other support object, tagged by an
identifier so that distinct objects are distinguishable. -/
inductive ChannelSupport where
  | measurements
  | custom (id : Nat)
deriving DecidableEq, Repr

/-- One error constructor per `throw new Error(...)` site of `scope.ts`,
plus `external` for errors raised by the collaborators
(`getDataSourceSrv().get`, `loadPlugin`). -/
inductive ScopeError where
  | unknownFeature (ns : String)
  | unknownStreamingPlugin (ns : String)
  | pluginNoStreaming (ns : String)
  | external (msg : String)
deriving DecidableEq, Repr

/-- The message string carried by each error, exactly as built in the source. -/
def ScopeError.message : ScopeError → String
  | .unknownFeature ns => "unknown feature: " ++ ns
  | .unknownStreamingPlugin ns => "Unknown streaming plugin: " ++ ns
  | .pluginNoStreaming ns => "Plugin does not support streaming: " ++ ns
  | .external msg => msg

/-- `SelectableValue<string>` as populated by `scope.ts`: every field is
optional in the TypeScript interface; the code always sets `value` and
`label`, while `description` may come from an optional chain. -/
structure SelectableValue where
  value : Option String
  label : Option String
  description : Option String
deriving DecidableEq, Repr

/-- Modelled from the spec: `CoreGrafanaLiveFeature` (declared in
`channel-config/types.ts`, which is not under `src/`) is the
`(name, description, support)` registration triple. -/
structure CoreGrafanaLiveFeature where
  name : String
  description : String
  support : ChannelSupport
deriving DecidableEq, Repr

/-- `Map.get`: the value stored at `k`, if any. -/
def mapGet (m : List (String × ChannelSupport)) (k : String) : Option ChannelSupport :=
  match m with
  | [] => none
  | (k', v) :: rest => if k' = k then some v else mapGet rest k

/-- `Map.set`: replace the value at `k` in place if present (JavaScript `Map`
keeps the original insertion position), otherwise append the new entry. -/
def mapSet (m : List (String × ChannelSupport)) (k : String) (v : ChannelSupport) :
    List (String × ChannelSupport) :=
  match m with
  | [] => [(k, v)]
  | (k', v') :: rest => if k' = k then (k, v) :: rest else (k', v') :: mapSet rest k v

/-- State of `GrafanaLiveCoreScope`: the `features` map and the `namespaces`
array, plus the scope enumerant stored by the base-class constructor. -/
structure GrafanaLiveCoreScope where
  scope : LiveChannelScope
  features : List (String × ChannelSupport)
  namespaces : List SelectableValue
deriving DecidableEq, Repr

/-- A freshly constructed `GrafanaLiveCoreScope` (`new Map()`, empty array,
`super(LiveChannelScope.Grafana)`). -/
def GrafanaLiveCoreScope.init : GrafanaLiveCoreScope :=
  { scope := .grafana, features := [], namespaces := [] }

/-- `GrafanaLiveCoreScope.register`: `features.set` plus a push of
`{value: name, label: name, description}` onto `namespaces`. -/
def GrafanaLiveCoreScope.register (sc : GrafanaLiveCoreScope)
    (feature : CoreGrafanaLiveFeature) : GrafanaLiveCoreScope :=
  { sc with
    features := mapSet sc.features feature.name feature.support
    namespaces := sc.namespaces ++
      [{ value := some feature.name, label := some feature.name,
         description := some feature.description }] }

/-- Register a list of features left to right. -/
def GrafanaLiveCoreScope.registerAll (sc : GrafanaLiveCoreScope)
    (fs : List CoreGrafanaLiveFeature) : GrafanaLiveCoreScope :=
  fs.foldl GrafanaLiveCoreScope.register sc

/-- `GrafanaLiveCoreScope.getChannelSupport`: return the registered support
for `ns` if the map holds one, else throw `unknown feature: <ns>`.  The
method reads `this.features` and assigns nothing, so the state is returned
unchanged. -/
def GrafanaLiveCoreScope.getChannelSupport (sc : GrafanaLiveCoreScope) (ns : String) :
    Except ScopeError ChannelSupport × GrafanaLiveCoreScope :=
  (match mapGet sc.features ns with
   | some v => .ok v
   | none => .error (.unknownFeature ns), sc)

/-- `GrafanaLiveCoreScope.listNamespaces`: `Promise.resolve(this.namespaces)`. -/
def GrafanaLiveCoreScope.listNamespaces (sc : GrafanaLiveCoreScope) :
    List SelectableValue × GrafanaLiveCoreScope :=
  (sc.namespaces, sc)

/-- A datasource instance returned by the datasource resolver; it optionally
exposes a `channelSupport` object (`@grafana/data`, collaborator). -/
structure DataSourceApi where
  channelSupport : Option ChannelSupport
deriving DecidableEq, Repr

/-- The datasource resolver collaborator: `getDataSourceSrv().get(ns)`
resolves a datasource instance or rejects. -/
structure DataSourceSrv where
  get : String → Except ScopeError DataSourceApi

/-- `ds.meta` of a configured datasource (`DataSourcePluginMeta`): only the
`live` flag is read by `scope.ts`. -/
structure DataSourceMeta where
  live : Bool
deriving DecidableEq, Repr

/-- One entry of `config.datasources`: the fields read by `scope.ts`
(`ds.name`, `ds.type`, `ds.meta.live`). -/
structure DataSourceInstanceSettings where
  name : String
  type : String
  meta : DataSourceMeta
deriving DecidableEq, Repr

/-- `plugin.info` of a configured panel; `scope.ts` reads only
`info?.description`. -/
structure PluginMetaInfo where
  description : String
deriving DecidableEq, Repr

/-- One entry of `config.panels`: the fields read by `scope.ts`
(`panel.live`, `panel.name`, `panel.info?.description`). -/
structure PanelPluginMeta where
  name : String
  info : Option PluginMetaInfo
  live : Bool
deriving DecidableEq, Repr

/-- The configuration snapshot `config` (`app/core/config`): the two
mappings `scope.ts` iterates with `Object.entries`, in entry order. -/
structure GrafanaBootConfig where
  datasources : List (String × DataSourceInstanceSettings)
  panels : List (String × PanelPluginMeta)

/-- A loaded plugin; it optionally exposes a `channelSupport` object. -/
structure AmPlugin where
  channelSupport : Option ChannelSupport
deriving DecidableEq, Repr

/-- The plugin-loading collaborator: `loadPlugin(pluginId)` resolves a plugin,
resolves a falsy value (`ok none`), or rejects (`error`). -/
structure PluginLoader where
  loadPlugin : String → Except ScopeError (Option AmPlugin)

/-- State of `GrafanaLiveDataSourceScope`: the optional `names` cache and the
scope enumerant. -/
structure GrafanaLiveDataSourceScope where
  scope : LiveChannelScope
  names : Option (List SelectableValue)
deriving DecidableEq, Repr

/-- A freshly constructed `GrafanaLiveDataSourceScope`. -/
def GrafanaLiveDataSourceScope.init : GrafanaLiveDataSourceScope :=
  { scope := .dataSource, names := none }

/-- Body of `GrafanaLiveDataSourceScope.getChannelSupport`: resolve the
datasource for `ns`; return its `channelSupport` when it exposes one, else a
fresh default `LiveMeasurementsSupport`; a resolver rejection propagates.
The method reads no instance field, so it is a function of the collaborator
only. -/
def GrafanaLiveDataSourceScope.resolveChannelSupport (srv : DataSourceSrv)
    (ns : String) : Except ScopeError ChannelSupport :=
  match srv.get ns with
  | .error e => .error e
  | .ok ds =>
    match ds.channelSupport with
    | some cs => .ok cs
    | none => .ok .measurements

/-- `GrafanaLiveDataSourceScope.getChannelSupport` as a method: it assigns no
instance field, so the state passes through unchanged. -/
def GrafanaLiveDataSourceScope.getChannelSupport (sc : GrafanaLiveDataSourceScope)
    (srv : DataSourceSrv) (ns : String) :
    Except ScopeError ChannelSupport × GrafanaLiveDataSourceScope :=
  (GrafanaLiveDataSourceScope.resolveChannelSupport srv ns, sc)

/-- The scan loop of `GrafanaLiveDataSourceScope.listNamespaces`: for each
`config.datasources` entry whose `meta.live` flag is set, try
`getChannelSupport(key)`; on success push
`{label: ds.name, value: ds.type, description: ds.type}`; a thrown error is
marked handled (`err.isHandled = true`) and the entry skipped. -/
def dsScanNames (srv : DataSourceSrv)
    (entries : List (String × DataSourceInstanceSettings)) : List SelectableValue :=
  match entries with
  | [] => []
  | (key, ds) :: rest =>
    if ds.meta.live then
      match GrafanaLiveDataSourceScope.resolveChannelSupport srv key with
      | .ok _ =>
        { value := some ds.type, label := some ds.name,
          description := some ds.type } :: dsScanNames srv rest
      | .error _ => dsScanNames srv rest
    else dsScanNames srv rest

/-- `GrafanaLiveDataSourceScope.listNamespaces`: return the cached `names`
when already populated (a cached empty array is still truthy in the source,
hence `Option`); otherwise scan the configuration once and cache the result. -/
def GrafanaLiveDataSourceScope.listNamespaces (sc : GrafanaLiveDataSourceScope)
    (srv : DataSourceSrv) (config : GrafanaBootConfig) :
    List SelectableValue × GrafanaLiveDataSourceScope :=
  match sc.names with
  | some l => (l, sc)
  | none =>
    let names := dsScanNames srv config.datasources
    (names, { sc with names := some names })

/-- State of `GrafanaLivePluginScope`. -/
structure GrafanaLivePluginScope where
  scope : LiveChannelScope
  names : Option (List SelectableValue)
deriving DecidableEq, Repr

/-- A freshly constructed `GrafanaLivePluginScope`. -/
def GrafanaLivePluginScope.init : GrafanaLivePluginScope :=
  { scope := .plugin, names := none }

/-- Body of `GrafanaLivePluginScope.getChannelSupport`: load the plugin for
`ns`; throw `Unknown streaming plugin: <ns>` when the loader yields no
plugin, return its explicit `channelSupport` when declared, else throw
`Plugin does not support streaming: <ns>`.  A loader rejection propagates. -/
def GrafanaLivePluginScope.resolveChannelSupport (loader : PluginLoader)
    (ns : String) : Except ScopeError ChannelSupport :=
  match loader.loadPlugin ns with
  | .error e => .error e
  | .ok none => .error (.unknownStreamingPlugin ns)
  | .ok (some plugin) =>
    match plugin.channelSupport with
    | some cs => .ok cs
    | none => .error (.pluginNoStreaming ns)

/-- `GrafanaLivePluginScope.getChannelSupport` as a method: it assigns no
instance field, so the state passes through unchanged. -/
def GrafanaLivePluginScope.getChannelSupport (sc : GrafanaLivePluginScope)
    (loader : PluginLoader) (ns : String) :
    Except ScopeError ChannelSupport × GrafanaLivePluginScope :=
  (GrafanaLivePluginScope.resolveChannelSupport loader ns, sc)

/-- The scan loop of `GrafanaLivePluginScope.listNamespaces`: for each
`config.panels` entry whose `live` flag is set, try `getChannelSupport(key)`;
on success push `{label: panel.name, value: key, description:
panel.info?.description}`; a thrown error is marked handled and the entry
skipped. -/
def pluginScanNames (loader : PluginLoader)
    (entries : List (String × PanelPluginMeta)) : List SelectableValue :=
  match entries with
  | [] => []
  | (key, panel) :: rest =>
    if panel.live then
      match GrafanaLivePluginScope.resolveChannelSupport loader key with
      | .ok _ =>
        { value := some key, label := some panel.name,
          description := panel.info.map PluginMetaInfo.description }
          :: pluginScanNames loader rest
      | .error _ => pluginScanNames loader rest
    else pluginScanNames loader rest

/-- `GrafanaLivePluginScope.listNamespaces`: cached-once scan of
`config.panels`, same pattern as the datasource scope. -/
def GrafanaLivePluginScope.listNamespaces (sc : GrafanaLivePluginScope)
    (loader : PluginLoader) (config : GrafanaBootConfig) :
    List SelectableValue × GrafanaLivePluginScope :=
  match sc.names with
  | some l => (l, sc)
  | none =>
    let names := pluginScanNames loader config.panels
    (names, { sc with names := some names })

/-- State of `GrafanaLiveStreamScope`. -/
structure GrafanaLiveStreamScope where
  scope : LiveChannelScope
  names : Option (List SelectableValue)
deriving DecidableEq, Repr

/-- A freshly constructed `GrafanaLiveStreamScope`. -/
def GrafanaLiveStreamScope.init : GrafanaLiveStreamScope :=
  { scope := .stream, names := none }

/-- `GrafanaLiveStreamScope.getChannelSupport`: unconditionally return a
fresh default `LiveMeasurementsSupport`, for any namespace; no instance
field is read or assigned. -/
def GrafanaLiveStreamScope.getChannelSupport (sc : GrafanaLiveStreamScope)
    (_ns : String) : Except ScopeError ChannelSupport × GrafanaLiveStreamScope :=
  (.ok .measurements, sc)

/-- `GrafanaLiveStreamScope.listNamespaces`: cached-once empty list (the
scan body is an unimplemented stub in the source). -/
def GrafanaLiveStreamScope.listNamespaces (sc : GrafanaLiveStreamScope) :
    List SelectableValue × GrafanaLiveStreamScope :=
  match sc.names with
  | some l => (l, sc)
  | none => ([], { sc with names := some [] })

/-- The `SelectableValue` entry pushed by `GrafanaLiveCoreScope.register`. -/
def featureEntry (f : CoreGrafanaLiveFeature) : SelectableValue :=
  { value := some f.name, label := some f.name, description := some f.description }

theorem mapGet_mapSet_self (m : List (String × ChannelSupport)) (k : String)
    (v : ChannelSupport) : mapGet (mapSet m k v) k = some v := by
  induction m with
  | nil => simp [mapSet, mapGet]
  | cons hd tl ih =>
    obtain ⟨k', v'⟩ := hd
    by_cases h : k' = k <;> simp [mapSet, mapGet, h, ih]

theorem mapGet_mapSet_ne (m : List (String × ChannelSupport)) (k' k : String)
    (v : ChannelSupport) (h : k' ≠ k) : mapGet (mapSet m k' v) k = mapGet m k := by
  induction m with
  | nil => simp [mapSet, mapGet, h]
  | cons hd tl ih =>
    obtain ⟨k'', v''⟩ := hd
    by_cases h2 : k'' = k'
    · subst h2
      simp [mapSet, mapGet, h]
    · by_cases h3 : k'' = k <;>
        simp [mapSet, mapGet, h2, h3, ih, Ne.symm h]

theorem registerAll_mapGet_of_fresh (fs : List CoreGrafanaLiveFeature)
    (sc : GrafanaLiveCoreScope) (n : String) (h : ∀ g ∈ fs, g.name ≠ n) :
    mapGet (sc.registerAll fs).features n = mapGet sc.features n := by
  induction fs generalizing sc with
  | nil => rfl
  | cons f rest ih =>
    have hf : f.name ≠ n := h f (List.mem_cons_self f rest)
    have hrest : ∀ g ∈ rest, g.name ≠ n := fun g hg => h g (List.mem_cons_of_mem f hg)
    calc mapGet (sc.registerAll (f :: rest)).features n
        = mapGet ((sc.register f).registerAll rest).features n := rfl
      _ = mapGet (sc.register f).features n := ih (sc.register f) hrest
      _ = mapGet sc.features n := mapGet_mapSet_ne sc.features f.name n f.support hf

theorem registerAll_namespaces (fs : List CoreGrafanaLiveFeature)
    (sc : GrafanaLiveCoreScope) :
    (sc.registerAll fs).namespaces = sc.namespaces ++ fs.map featureEntry := by
  induction fs generalizing sc with
  | nil => simp [GrafanaLiveCoreScope.registerAll]
  | cons f rest ih =>
    calc (sc.registerAll (f :: rest)).namespaces
        = ((sc.register f).registerAll rest).namespaces := rfl
      _ = (sc.register f).namespaces ++ rest.map featureEntry := ih (sc.register f)
      _ = sc.namespaces ++ (f :: rest).map featureEntry := by
          simp [GrafanaLiveCoreScope.register, featureEntry]

/-- Claim C1: on the core scope, `getChannelSupport n` returns exactly the
support object passed to the most recent `register` call for `n`: starting
from any scope state `sc` (so in particular one where `n` was already
registered — the duplicate registration throws nothing, `register` being a
total function), registering `f` and then any further features with other
names makes the lookup of `f.name` return `f.support` (last write wins). -/
theorem coreScope_register_last_write_wins (sc : GrafanaLiveCoreScope)
    (f : CoreGrafanaLiveFeature) (fs : List CoreGrafanaLiveFeature)
    (h : ∀ g ∈ fs, g.name ≠ f.name) :
    (((sc.register f).registerAll fs).getChannelSupport f.name).1 = .ok f.support := by
  have hget : mapGet ((sc.register f).registerAll fs).features f.name = some f.support := by
    rw [registerAll_mapGet_of_fresh fs (sc.register f) f.name h]
    exact mapGet_mapSet_self sc.features f.name f.support
  simp [GrafanaLiveCoreScope.getChannelSupport, hget]

/-- Witness for C1: register `a` twice (no error: both calls return a scope),
then `b`; the lookup of `a` yields the second support object. -/
theorem coreScope_register_last_write_wins_witness :
    (∀ g ∈ [(⟨"b", "d2", .custom 2⟩ : CoreGrafanaLiveFeature)],
      g.name ≠ ("a" : String)) ∧
    ((((GrafanaLiveCoreScope.init.register ⟨"a", "d0", .custom 0⟩).register
        ⟨"a", "d1", .custom 1⟩).registerAll
        [⟨"b", "d2", .custom 2⟩]).getChannelSupport "a").1 = .ok (.custom 1) :=
  ⟨by decide,
   coreScope_register_last_write_wins
     (GrafanaLiveCoreScope.init.register ⟨"a", "d0", .custom 0⟩)
     ⟨"a", "d1", .custom 1⟩ [⟨"b", "d2", .custom 2⟩] (by decide)⟩

/-- Counterexample to claim C2 as stated: registering the name `a` twice
leaves two entries for `a` in `listNamespaces` (the namespaces array is
pushed on every call, with no de-duplication), so the list is not "one entry
per distinct name": one distinct name was registered, yet the length is 2. -/
theorem coreScope_listNamespaces_duplicate_counterexample :
    (((GrafanaLiveCoreScope.init.register ⟨"a", "d1", .custom 0⟩).register
        ⟨"a", "d2", .custom 1⟩).listNamespaces).1 =
      [{ value := some "a", label := some "a", description := some "d1" },
       { value := some "a", label := some "a", description := some "d2" }] ∧
    ¬ (((GrafanaLiveCoreScope.init.register ⟨"a", "d1", .custom 0⟩).register
        ⟨"a", "d2", .custom 1⟩).listNamespaces).1.length = 1 := by
  constructor
  · rfl
  · decide

/-- Claim C2 (amended): after any sequence of `register` calls on a fresh
core scope, `listNamespaces` returns one entry per `register` call —
duplicate names included — in call order, each entry having `value` and
`label` equal to that call's feature name and `description` equal to that
call's description. -/
theorem coreScope_listNamespaces_registration_order (fs : List CoreGrafanaLiveFeature) :
    ((GrafanaLiveCoreScope.init.registerAll fs).listNamespaces).1 =
      fs.map featureEntry := by
  simp [GrafanaLiveCoreScope.listNamespaces, registerAll_namespaces,
    GrafanaLiveCoreScope.init]

/-- Claim C7: on the core scope, `getChannelSupport` for a name that is not
a registered feature fails with the not-found error whose message is
`unknown feature: <ns>`, a string containing the name. -/
theorem coreScope_getChannelSupport_unknown (sc : GrafanaLiveCoreScope)
    (ns : String) (h : mapGet sc.features ns = none) :
    (sc.getChannelSupport ns).1 = .error (.unknownFeature ns) ∧
    (ScopeError.unknownFeature ns).message = "unknown feature: " ++ ns ∧
    ∃ pre post, (ScopeError.unknownFeature ns).message = pre ++ ns ++ post := by
  refine ⟨?_, rfl, "unknown feature: ", "", by simp [ScopeError.message]⟩
  simp [GrafanaLiveCoreScope.getChannelSupport, h]

/-- Witness for C7: the fresh core scope has no feature `beta`. -/
theorem coreScope_getChannelSupport_unknown_witness :
    mapGet GrafanaLiveCoreScope.init.features "beta" = none ∧
    (GrafanaLiveCoreScope.init.getChannelSupport "beta").1 =
      .error (.unknownFeature "beta") :=
  ⟨rfl, (coreScope_getChannelSupport_unknown GrafanaLiveCoreScope.init "beta" rfl).1⟩

/-- Claim C9: the stream scope's `getChannelSupport` succeeds for every
namespace string, with no validation, returning the default measurements
support object (a value, never a null/absent result) and leaving the scope
state untouched. -/
theorem streamScope_getChannelSupport_default (sc : GrafanaLiveStreamScope)
    (ns : String) :
    sc.getChannelSupport ns = (.ok ChannelSupport.measurements, sc) := rfl

/-- Claim C3: for every scope and namespace, two successive
`getChannelSupport` calls for the same namespace against the same
collaborators (state threaded from the first call into the second) produce
the same result — both fail with the same error or both return the same
support value.  Support objects are compared as values; the fresh default
`LiveMeasurementsSupport` instances the source allocates per call are all
the value `measurements`. -/
theorem getChannelSupport_stable (core : GrafanaLiveCoreScope)
    (dsc : GrafanaLiveDataSourceScope) (psc : GrafanaLivePluginScope)
    (ssc : GrafanaLiveStreamScope) (srv : DataSourceSrv) (loader : PluginLoader)
    (ns : String) :
    ((core.getChannelSupport ns).2.getChannelSupport ns).1 =
      (core.getChannelSupport ns).1 ∧
    ((dsc.getChannelSupport srv ns).2.getChannelSupport srv ns).1 =
      (dsc.getChannelSupport srv ns).1 ∧
    ((psc.getChannelSupport loader ns).2.getChannelSupport loader ns).1 =
      (psc.getChannelSupport loader ns).1 ∧
    ((ssc.getChannelSupport ns).2.getChannelSupport ns).1 =
      (ssc.getChannelSupport ns).1 :=
  ⟨rfl, rfl, rfl, rfl⟩

/-- Claim C4: the datasource scope's `listNamespaces`, called a second time
(whatever the first call's scan produced, an empty list included), returns
the list cached by the first call and does not re-scan: the second call's
result and state do not depend on the — possibly mutated — configuration
snapshot or resolver passed to it. -/
theorem dsScope_listNamespaces_cached (sc : GrafanaLiveDataSourceScope)
    (srv srv2 : DataSourceSrv) (config config2 : GrafanaBootConfig) :
    ((sc.listNamespaces srv config).2.listNamespaces srv2 config2).1 =
      (sc.listNamespaces srv config).1 ∧
    ((sc.listNamespaces srv config).2.listNamespaces srv2 config2).2 =
      (sc.listNamespaces srv config).2 := by
  cases hn : sc.names <;> simp [GrafanaLiveDataSourceScope.listNamespaces, hn]

/-- Claim C5: with two live-flagged datasource entries, one whose resolver
call succeeds and one whose resolver throws, the datasource scope's
`listNamespaces` (which returns a plain list — the per-entry error is caught,
marked handled and never re-raised to the caller) produces exactly the one
entry for the successful datasource, in either configuration order. -/
theorem dsScope_listNamespaces_skips_throwing_entry (srv : DataSourceSrv)
    (kG kB : String) (dG dB : DataSourceInstanceSettings) (api : DataSourceApi)
    (e : ScopeError) (hLG : dG.meta.live = true) (hLB : dB.meta.live = true)
    (hG : srv.get kG = .ok api) (hB : srv.get kB = .error e) :
    (GrafanaLiveDataSourceScope.init.listNamespaces srv
        ⟨[(kG, dG), (kB, dB)], []⟩).1 =
      [{ value := some dG.type, label := some dG.name, description := some dG.type }] ∧
    (GrafanaLiveDataSourceScope.init.listNamespaces srv
        ⟨[(kB, dB), (kG, dG)], []⟩).1 =
      [{ value := some dG.type, label := some dG.name, description := some dG.type }] := by
  have hres : GrafanaLiveDataSourceScope.resolveChannelSupport srv kG =
      .ok (match api.channelSupport with | some cs => cs | none => .measurements) := by
    cases hcs : api.channelSupport <;>
      simp [GrafanaLiveDataSourceScope.resolveChannelSupport, hG, hcs]
  have hbad : GrafanaLiveDataSourceScope.resolveChannelSupport srv kB = .error e := by
    simp [GrafanaLiveDataSourceScope.resolveChannelSupport, hB]
  constructor <;>
    simp [GrafanaLiveDataSourceScope.listNamespaces, GrafanaLiveDataSourceScope.init,
      dsScanNames, hLG, hLB, hres, hbad]

/-- Witness for C5: a resolver that succeeds on `good` and throws on `bad`;
the scan of the two live entries yields only the `good` entry. -/
theorem dsScope_listNamespaces_skips_throwing_entry_witness :
    (GrafanaLiveDataSourceScope.init.listNamespaces
        ⟨fun n => if n = "good" then .ok ⟨some (.custom 0)⟩
                  else .error (.external "boom")⟩
        ⟨[("good", ⟨"GoodDS", "postgres", ⟨true⟩⟩),
          ("bad", ⟨"BadDS", "loki", ⟨true⟩⟩)], []⟩).1 =
      [{ value := some "postgres", label := some "GoodDS",
         description := some "postgres" }] :=
  (dsScope_listNamespaces_skips_throwing_entry
    ⟨fun n => if n = "good" then .ok ⟨some (.custom 0)⟩
              else .error (.external "boom")⟩
    "good" "bad" ⟨"GoodDS", "postgres", ⟨true⟩⟩ ⟨"BadDS", "loki", ⟨true⟩⟩
    ⟨some (.custom 0)⟩ (.external "boom") rfl rfl (by simp) (by simp)).1

/-- Claim C6: on the plugin scope, when the loader yields no plugin,
`getChannelSupport` fails with the not-found error whose message is
`Unknown streaming plugin: <ns>`; when the plugin loads but declares no
`channelSupport`, it fails with the distinct unsupported error — not the
not-found one — whose message is `Plugin does not support streaming: <ns>`. -/
theorem pluginScope_getChannelSupport_error_kinds (sc : GrafanaLivePluginScope)
    (loader : PluginLoader) (ns : String) :
    (loader.loadPlugin ns = .ok none →
      (sc.getChannelSupport loader ns).1 = .error (.unknownStreamingPlugin ns) ∧
      (ScopeError.unknownStreamingPlugin ns).message =
        "Unknown streaming plugin: " ++ ns) ∧
    (∀ plugin : AmPlugin, loader.loadPlugin ns = .ok (some plugin) →
      plugin.channelSupport = none →
      (sc.getChannelSupport loader ns).1 = .error (.pluginNoStreaming ns) ∧
      ScopeError.pluginNoStreaming ns ≠ ScopeError.unknownStreamingPlugin ns ∧
      (ScopeError.pluginNoStreaming ns).message =
        "Plugin does not support streaming: " ++ ns) := by
  constructor
  · intro h
    refine ⟨?_, rfl⟩
    simp [GrafanaLivePluginScope.getChannelSupport,
      GrafanaLivePluginScope.resolveChannelSupport, h]
  · intro plugin h hcs
    refine ⟨?_, by simp, rfl⟩
    simp [GrafanaLivePluginScope.getChannelSupport,
      GrafanaLivePluginScope.resolveChannelSupport, h, hcs]

/-- Witness for C6: a loader yielding no plugin for `x`, and a loader
yielding a plugin without channel support for `y`. -/
theorem pluginScope_getChannelSupport_error_kinds_witness :
    (GrafanaLivePluginScope.init.getChannelSupport ⟨fun _ => .ok none⟩ "x").1 =
      .error (.unknownStreamingPlugin "x") ∧
    (GrafanaLivePluginScope.init.getChannelSupport
        ⟨fun _ => .ok (some ⟨none⟩)⟩ "y").1 = .error (.pluginNoStreaming "y") :=
  ⟨((pluginScope_getChannelSupport_error_kinds GrafanaLivePluginScope.init
      ⟨fun _ => .ok none⟩ "x").1 rfl).1,
   ((pluginScope_getChannelSupport_error_kinds GrafanaLivePluginScope.init
      ⟨fun _ => .ok (some ⟨none⟩)⟩ "y").2 ⟨none⟩ rfl rfl).1⟩

/-- Claim C8: a failing `getChannelSupport` call leaves every scope's state
unchanged — the core scope's `features` map and `namespaces` list, and the
datasource/plugin/stream scopes' `names` cache are the same after the failed
lookup — and lookups of any other namespace afterwards return what they
would have returned before. -/
theorem getChannelSupport_failure_preserves_state :
    (∀ (sc : GrafanaLiveCoreScope) (ns : String) (e : ScopeError),
      (sc.getChannelSupport ns).1 = .error e →
      (sc.getChannelSupport ns).2.features = sc.features ∧
      (sc.getChannelSupport ns).2.namespaces = sc.namespaces ∧
      ∀ ns2 : String, ((sc.getChannelSupport ns).2.getChannelSupport ns2).1 =
        (sc.getChannelSupport ns2).1) ∧
    (∀ (sc : GrafanaLiveDataSourceScope) (srv : DataSourceSrv) (ns : String)
      (e : ScopeError), (sc.getChannelSupport srv ns).1 = .error e →
      (sc.getChannelSupport srv ns).2.names = sc.names ∧
      ∀ ns2 : String, ((sc.getChannelSupport srv ns).2.getChannelSupport srv ns2).1 =
        (sc.getChannelSupport srv ns2).1) ∧
    (∀ (sc : GrafanaLivePluginScope) (loader : PluginLoader) (ns : String)
      (e : ScopeError), (sc.getChannelSupport loader ns).1 = .error e →
      (sc.getChannelSupport loader ns).2.names = sc.names ∧
      ∀ ns2 : String,
        ((sc.getChannelSupport loader ns).2.getChannelSupport loader ns2).1 =
          (sc.getChannelSupport loader ns2).1) ∧
    (∀ (sc : GrafanaLiveStreamScope) (ns : String) (e : ScopeError),
      (sc.getChannelSupport ns).1 = .error e →
      (sc.getChannelSupport ns).2.names = sc.names) :=
  ⟨fun _ _ _ _ => ⟨rfl, rfl, fun _ => rfl⟩,
   fun _ _ _ _ _ => ⟨rfl, fun _ => rfl⟩,
   fun _ _ _ _ _ => ⟨rfl, fun _ => rfl⟩,
   fun _ _ _ _ => rfl⟩

/-- Witness for C8: a failing core lookup on a fresh scope and a failing
plugin lookup with a loader that yields no plugin both leave the state
fields unchanged. -/
theorem getChannelSupport_failure_preserves_state_witness :
    (GrafanaLiveCoreScope.init.getChannelSupport "nope").2.features =
      GrafanaLiveCoreScope.init.features ∧
    (GrafanaLivePluginScope.init.getChannelSupport ⟨fun _ => .ok none⟩ "p").2.names =
      GrafanaLivePluginScope.init.names :=
  ⟨(getChannelSupport_failure_preserves_state.1 GrafanaLiveCoreScope.init "nope"
      (.unknownFeature "nope") rfl).1,
   (getChannelSupport_failure_preserves_state.2.2.1 GrafanaLivePluginScope.init
      ⟨fun _ => .ok none⟩ "p" (.unknownStreamingPlugin "p") rfl).1⟩

/-- Claim C10: the entry the plugin scope's `listNamespaces` appends for a
live-flagged panel whose plugin resolves with channel support has `value`
equal to the panel's configuration key, `label` equal to the panel's display
name, and `description` equal to the panel's optional `info.description`
(absent when `info` is absent). -/
theorem pluginScope_listNamespaces_entry_shape (loader : PluginLoader)
    (key : String) (panel : PanelPluginMeta)
    (rest : List (String × PanelPluginMeta))
    (dss : List (String × DataSourceInstanceSettings)) (s : ChannelSupport)
    (hLive : panel.live = true)
    (hOk : GrafanaLivePluginScope.resolveChannelSupport loader key = .ok s) :
    (GrafanaLivePluginScope.init.listNamespaces loader ⟨dss, (key, panel) :: rest⟩).1 =
      { value := some key, label := some panel.name,
        description := panel.info.map PluginMetaInfo.description }
        :: pluginScanNames loader rest := by
  simp [GrafanaLivePluginScope.listNamespaces, GrafanaLivePluginScope.init,
    pluginScanNames, hLive, hOk]

/-- Witness for C10: one live panel `geomap` whose plugin resolves with
support; the listed entry is `(geomap, Geomap, Map panel)`. -/
theorem pluginScope_listNamespaces_entry_shape_witness :
    (GrafanaLivePluginScope.init.listNamespaces
        ⟨fun _ => .ok (some ⟨some (.custom 5)⟩)⟩
        ⟨[], [("geomap", ⟨"Geomap", some ⟨"Map panel"⟩, true⟩)]⟩).1 =
      [{ value := some "geomap", label := some "Geomap",
         description := some "Map panel" }] := by
  have h := pluginScope_listNamespaces_entry_shape
    ⟨fun _ => .ok (some ⟨some (.custom 5)⟩)⟩ "geomap"
    ⟨"Geomap", some ⟨"Map panel"⟩, true⟩ [] [] (.custom 5) rfl rfl
  simpa [pluginScanNames, Option.map] using h

end GrafanaLive
